import Mathlib

/-
Verification development for the Unraid GraphQL API command-line client
(`unraid_api_client.py`).  The Python source is shallowly embedded below:
the client session state, the one-time redirect-discovery probe, the query
executor, the unsupported docker/VM control stubs, and the CLI dispatch of
`main` become explicit Lean functions.  Network and library effects
(the probe response, the POST outcome, exceptions raised by the `requests`
library) are passed in as explicit values, and every emitted request and
printed diagnostic is returned as data so that theorems can speak about
request counts and logged output.
-/

namespace Unraid

/-- JSON values as decoded by the Python json library. -/
inductive Json where
  | null
  | bool (b : Bool)
  | num (n : Int)
  | str (s : String)
  | arr (elems : List Json)
  | obj (fields : List (String × Json))

/-- Lookup in a Python dict modelled as an ordered association list:
the value of the first entry with exactly this key. -/
def pyDictGet {α : Type} : List (String × α) → String → Option α
  | [], _ => none
  | (k', v) :: rest, k => if k' = k then some v else pyDictGet rest k

/-- Assignment `d[k] = v` on a Python dict modelled as an ordered
association list: replace in place if the key exists, else append. -/
def pyDictSet {α : Type} : List (String × α) → String → α → List (String × α)
  | [], k, v => [(k, v)]
  | (k', v') :: rest, k, v =>
    if k' = k then (k, v) :: rest else (k', v') :: pyDictSet rest k v

/-- Lowercasing of a header name, character by character (the
`CaseInsensitiveDict` of `requests` compares keys lowercased). -/
def lowerName (s : String) : String :=
  String.mk (s.data.map Char.toLower)

/-- Lookup in a `requests` response-header mapping, which is
case-insensitive (`CaseInsensitiveDict`). -/
def headerGet : List (String × String) → String → Option String
  | [], _ => none
  | (k', v) :: rest, k =>
    if lowerName k' = lowerName k then some v else headerGet rest k

/-- Message kinds produced by the CPython json decoder when a body fails
to parse (the fixed prose the decoder uses, none of which begins with the
letter the transport failures begin with). -/
inductive JsonErrKind where
  | expectingValue
  | extraData
  | unterminatedString
  | invalidControlChar
deriving DecidableEq

/-- The fixed message text of each json-decoder error kind. -/
def JsonErrKind.text : JsonErrKind → String
  | .expectingValue => "Expecting value"
  | .extraData => "Extra data"
  | .unterminatedString => "Unterminated string starting at"
  | .invalidControlChar => "Invalid control character at"

/-- A json decode error as raised by `response.json()`:
`str(e)` is `"{msg}: line {l} column {c} (char {p})"`. -/
structure JsonDecodeErr where
  kind : JsonErrKind
  line : Nat
  col : Nat
  pos : Nat

/-- String rendering of a json decode error, as Python prints it. -/
def JsonDecodeErr.text (e : JsonDecodeErr) : String :=
  e.kind.text ++ (": line " ++ (toString e.line ++ (" column " ++
    (toString e.col ++ (" (char " ++ (toString e.pos ++ ")"))))))

/-- An HTTP response as the `requests` library hands it back:
final status, reason phrase, final url, case-insensitive headers, raw body
text, and the outcome of decoding the body as JSON (`response.json()`). -/
structure HttpResponse where
  status : Nat
  reason : String
  url : String
  headers : List (String × String)
  bodyText : String
  bodyJson : Except JsonDecodeErr Json

/-- Exceptions of the `requests` library relevant to this client; all of
them subclass `RequestException` and are therefore caught by the catch-all
handlers in the source.  `text` below renders `str(e)`. -/
inductive ReqException where
  | connectionError (host : String) (port : Nat) (detail : String)
  | timeoutError (host : String) (port : Nat) (detail : String)
  | httpError (status : Nat) (reason : String) (url : String)
  | jsonDecodeError (e : JsonDecodeErr)

/-- The error-class word `raise_for_status` puts in an `HTTPError`
message: `Client` for 4xx, `Server` for 5xx. -/
def httpErrorClass (status : Nat) : String :=
  if status < 500 then "Client" else "Server"

/-- String rendering `str(e)` of each exception, following the message
formats of the `requests`/`urllib3` libraries. -/
def ReqException.text : ReqException → String
  | .connectionError host port detail =>
    "HTTPConnectionPool(host=" ++ (host ++ (", port=" ++
      (toString port ++ ("): Max retries exceeded " ++ detail))))
  | .timeoutError host port detail =>
    "HTTPConnectionPool(host=" ++ (host ++ (", port=" ++
      (toString port ++ ("): " ++ detail))))
  | .httpError status reason url =>
    toString status ++ (" " ++ (httpErrorClass status ++ (" Error: " ++
      (reason ++ (" for url: " ++ url)))))
  | .jsonDecodeError e => e.text

/-- Network-level (transport) failures: connection errors (refused
connections and DNS failures surface as `ConnectionError`) and timeouts. -/
def ReqException.isTransportFailure : ReqException → Bool
  | .connectionError _ _ _ => true
  | .timeoutError _ _ _ => true
  | _ => false

/-- The client session state: the fields set by
`UnraidGraphQLClient.__init__` and mutated by redirect discovery. -/
structure ClientState where
  server_ip : String
  api_key : String
  port : Nat
  base_url : String
  endpoint : String
  redirect_url : Option String
  headers : List (String × String)

/-- The initial header dict built in `__init__`. -/
def initialHeaders (api_key : String) : List (String × String) :=
  [("Content-Type", "application/json"),
   ("x-api-key", api_key),
   ("Accept", "application/json")]

/-- The session state as `__init__` builds it before redirect discovery
runs: `base_url = "http://{server_ip}:{port}"`,
`endpoint = base_url + "/graphql"`, no redirect url, initial headers. -/
def initState (server_ip api_key : String) (port : Nat) : ClientState :=
  let base := "http://" ++ server_ip ++ ":" ++ toString port
  { server_ip := server_ip
    api_key := api_key
    port := port
    base_url := base
    endpoint := base ++ "/graphql"
    redirect_url := none
    headers := initialHeaders api_key }

/-- The authority characters of a url: everything up to the next slash. -/
def takeAuthority (cs : List Char) : List Char :=
  cs.takeWhile (fun c => c ≠ '/')

/-- The search performed by `re.search(r"https?://([^/]+)", url)`: scan
for the first position where `http://` or `https://` matches followed by
at least one non-slash character, and capture that non-slash run. -/
def searchUrlAuthority : List Char → Option String
  | [] => none
  | c :: rest =>
    if ("https://".data).isPrefixOf (c :: rest) then
      let auth := takeAuthority ((c :: rest).drop 8)
      if auth.isEmpty then searchUrlAuthority rest else some (String.mk auth)
    else if ("http://".data).isPrefixOf (c :: rest) then
      let auth := takeAuthority ((c :: rest).drop 7)
      if auth.isEmpty then searchUrlAuthority rest else some (String.mk auth)
    else searchUrlAuthority rest

/-- The three header assignments performed when redirect discovery
extracts an authority from the redirect target:
`Host = domain`, `Origin = "https://" + domain`,
`Referer = "https://" + domain + "/dashboard"`. -/
def augmentHeaders (hs : List (String × String)) (domain : String) :
    List (String × String) :=
  pyDictSet (pyDictSet (pyDictSet hs "Host" domain) "Origin"
    ("https://" ++ domain)) "Referer" ("https://" ++ domain ++ "/dashboard")

/-- What the environment answers to the discovery probe
(`requests.get(endpoint, allow_redirects=False)`): either a response or a
raised `RequestException`. -/
inductive ProbeOutcome where
  | response (r : HttpResponse)
  | failure (e : ReqException)

/-- Shallow embedding of `UnraidGraphQLClient._discover_redirect_url`:
given the probe outcome, produce the updated session state and the list
of printed lines.  A status-302 response carrying a `Location` header
rewrites the endpoint and stores the redirect url; if an authority can be
extracted from the location, the `Host`, `Origin` and `Referer` headers
are merged into the header dict.  A raised `RequestException` only prints
a warning. -/
def discoverRedirectUrl (st : ClientState) (probe : ProbeOutcome) :
    ClientState × List String :=
  match probe with
  | .failure e =>
    (st, ["Warning: Could not discover redirect URL: " ++ e.text])
  | .response r =>
    if r.status = 302 then
      match headerGet r.headers "Location" with
      | some loc =>
        let st1 := { st with redirect_url := some loc, endpoint := loc }
        let st2 :=
          match searchUrlAuthority loc.data with
          | some domain =>
            { st1 with headers := augmentHeaders st1.headers domain }
          | none => st1
        (st2, ["Discovered redirect URL: " ++ loc])
      | none => (st, [])
    else (st, [])

/-- A network request issued by the client, as recorded in the request
log of the model. -/
inductive Request where
  | get (url : String)
  | post (url : String) (headers : List (String × String))
      (payload : List (String × Json))

/-- Shallow embedding of `UnraidGraphQLClient.__init__`: build the
initial state, issue the probe GET to the initial endpoint, and run
redirect discovery on its outcome.  Returns the resulting state, the
requests issued and the printed lines. -/
def initClient (server_ip api_key : String) (port : Nat)
    (probe : ProbeOutcome) : ClientState × List Request × List String :=
  let st := initState server_ip api_key port
  let disc := discoverRedirectUrl st probe
  (disc.1, [Request.get st.endpoint], disc.2)

/-- What the environment answers to the executor's
`session.post(endpoint, ...)`: the final response the session hands
back after its own redirect following, or a raised transport-level
exception. -/
inductive PostOutcome where
  | response (r : HttpResponse)
  | failure (e : ReqException)

/-- The value `execute_query` returns: the decoded JSON document on
success, or the Python dict `{"error": str(e)}` built in the except
branch. -/
inductive QueryResult where
  | ok (j : Json)
  | errorRecord (msg : String)

/-- The payload dict built at the top of `execute_query`:
`{"query": query}`, plus a `"variables"` entry when the `variables`
argument is truthy (supplied and non-empty). -/
def buildPayload (query : String)
    (vars : Option (List (String × Json))) : List (String × Json) :=
  match vars with
  | none => [("query", Json.str query)]
  | some vs =>
    if vs.isEmpty then [("query", Json.str query)]
    else [("query", Json.str query), ("variables", Json.obj vs)]

/-- The body of the `try` block of `execute_query` after the POST came
back: `response.raise_for_status()` raises `HTTPError` on a 4xx/5xx
status, otherwise `response.json()` returns the decoded body or raises a
json decode error.  A transport failure of the POST itself propagates. -/
def queryAttempt (outcome : PostOutcome) : Except ReqException Json :=
  match outcome with
  | .failure e => .error e
  | .response r =>
    if 400 ≤ r.status ∧ r.status < 600 then
      .error (.httpError r.status r.reason r.url)
    else
      match r.bodyJson with
      | .ok j => .ok j
      | .error je => .error (.jsonDecodeError je)

/-- The response attached to a caught exception (`e.response`): only the
`HTTPError` raised by `raise_for_status` carries the response; transport
and json decode errors carry none. -/
def errResponse (e : ReqException) (outcome : PostOutcome) :
    Option HttpResponse :=
  match e, outcome with
  | .httpError _ _ _, .response r => some r
  | _, _ => none

/-- Shallow embedding of `UnraidGraphQLClient.execute_query`: build the
payload, POST it to the session endpoint with the session headers, and
either return the decoded JSON body or catch the raised
`RequestException`, print diagnostics (plus the status and body when the
exception carries a response), and return `{"error": str(e)}`.  Returns
the result, the request log, and the printed lines. -/
def execute_query (st : ClientState) (query : String)
    (vars : Option (List (String × Json))) (outcome : PostOutcome) :
    QueryResult × List Request × List String :=
  let payload := buildPayload query vars
  let req := Request.post st.endpoint st.headers payload
  match queryAttempt outcome with
  | .ok j => (.ok j, [req], [])
  | .error e =>
    let extra :=
      match errResponse e outcome with
      | some r =>
        ["Response status: " ++ toString r.status,
         "Response body: " ++ r.bodyText]
      | none => []
    (.errorRecord e.text, [req],
     ("Error making the request: " ++ e.text) :: extra)

/-- The fixed message of the unsupported docker-container control
operations. -/
def unsupportedDockerMsg : String :=
  "Docker container control operations are not currently supported by the Unraid GraphQL API"

/-- The fixed message of the unsupported VM control operations. -/
def unsupportedVmMsg : String :=
  "VM control operations are not currently supported by the Unraid GraphQL API"

/-- Shallow embedding of `start_docker_container`: returns the fixed
error dict and issues no request. -/
def start_docker_container (_self : ClientState) (_container_id : String) :
    Json × List Request :=
  (Json.obj [("error", Json.str unsupportedDockerMsg)], [])

/-- Shallow embedding of `stop_docker_container`: returns the fixed
error dict and issues no request. -/
def stop_docker_container (_self : ClientState) (_container_id : String) :
    Json × List Request :=
  (Json.obj [("error", Json.str unsupportedDockerMsg)], [])

/-- Shallow embedding of `restart_docker_container`: returns the fixed
error dict and issues no request. -/
def restart_docker_container (_self : ClientState) (_container_id : String) :
    Json × List Request :=
  (Json.obj [("error", Json.str unsupportedDockerMsg)], [])

/-- Shallow embedding of `start_vm`: returns the fixed error dict and
issues no request. -/
def start_vm (_self : ClientState) (_vm_uuid : String) :
    Json × List Request :=
  (Json.obj [("error", Json.str unsupportedVmMsg)], [])

/-- Shallow embedding of `stop_vm`: returns the fixed error dict and
issues no request. -/
def stop_vm (_self : ClientState) (_vm_uuid : String) (_force : Bool) :
    Json × List Request :=
  (Json.obj [("error", Json.str unsupportedVmMsg)], [])

/-- Shallow embedding of `pause_vm`: returns the fixed error dict and
issues no request. -/
def pause_vm (_self : ClientState) (_vm_uuid : String) :
    Json × List Request :=
  (Json.obj [("error", Json.str unsupportedVmMsg)], [])

/-- Shallow embedding of `resume_vm`: returns the fixed error dict and
issues no request. -/
def resume_vm (_self : ClientState) (_vm_uuid : String) :
    Json × List Request :=
  (Json.obj [("error", Json.str unsupportedVmMsg)], [])

/-- The parsed command-line arguments of `main`.  `store_true` flags are
booleans; string-valued options are `Option String` (absent when not
given); `query` defaults to `"info"` and `importance` to `"INFO"`. -/
structure Args where
  ip : String
  key : String
  port : Nat
  query : String
  direct : Bool
  custom : Option String
  reboot : Bool
  shutdown : Bool
  start_array : Bool
  stop_array : Bool
  start_parity : Bool
  correct_parity : Bool
  pause_parity : Bool
  resume_parity : Bool
  cancel_parity : Bool
  add_user : Bool
  username : Option String
  password : Option String
  description : Option String
  delete_user : Bool
  create_apikey : Bool
  apikey_name : Option String
  apikey_roles : Option String
  create_notification : Bool
  title : Option String
  subject : Option String
  message : Option String
  importance : String
  link : Option String
  archive_notification : Option String
  archive_all : Bool
  setup_remote : Bool
  access_type : Option String
  forward_type : Option String
  remote_port : Option Nat
  start_container : Option String
  stop_container : Option String
  restart_container : Option String
  start_vm : Option String
  stop_vm : Option String
  force_stop_vm : Bool
  pause_vm : Option String
  resume_vm : Option String

/-- Python truthiness of an optional string argument: absent and the
empty string are falsy. -/
def truthy : Option String → Bool
  | none => false
  | some s => !(s == "")

/-- One top-level action of `main`: either the section `main` prints for
a control/mutating operation (including the argument-validation error it
prints before returning), the custom query, or one of the read-query
sections. -/
inductive Action where
  | reboot
  | shutdown
  | startArray
  | stopArray
  | startParity (correct : Bool)
  | pauseParity
  | resumeParity
  | cancelParity
  | addUser (username password description : String)
  | deleteUser (username : String)
  | createApiKey (name description : String) (roles : Option (List String))
  | createNotification (title subject message importance : String)
      (link : Option String)
  | archiveNotification (id : String)
  | archiveAll (importance : Option String)
  | setupRemote (access : String) (forward : Option String)
      (port : Option Nat)
  | startContainer (id : String)
  | stopContainer (id : String)
  | restartContainer (id : String)
  | startVm (id : String)
  | stopVm (id : String) (force : Bool)
  | pauseVm (id : String)
  | resumeVm (id : String)
  | argError (msg : String)
  | customQuery (q : String)
  | readInfo
  | readArray
  | readDocker
  | readDisks
  | readNetwork
  | readNetworkDetailed
  | readShares
  | readVms
  | readParity
  | readVars
  | readUsers
  | readApiKeys
  | readNotifications

/-- The read-query sections executed at the bottom of `main` for a given
value of the `query` selector. -/
def readActions (q : String) : List Action :=
  (if q = "info" ∨ q = "all" then [Action.readInfo] else []) ++
  (if q = "array" ∨ q = "all" then [Action.readArray] else []) ++
  (if q = "docker" ∨ q = "all" then [Action.readDocker] else []) ++
  (if q = "disks" ∨ q = "all" then [Action.readDisks] else []) ++
  (if q = "network" ∨ q = "all" then
    [Action.readNetwork, Action.readNetworkDetailed] else []) ++
  (if q = "shares" ∨ q = "all" then [Action.readShares] else []) ++
  (if q = "vms" ∨ q = "all" then [Action.readVms] else []) ++
  (if q = "parity" ∨ q = "all" then [Action.readParity] else []) ++
  (if q = "vars" ∨ q = "all" then [Action.readVars] else []) ++
  (if q = "users" ∨ q = "all" then [Action.readUsers] else []) ++
  (if q = "apikeys" ∨ q = "all" then [Action.readApiKeys] else []) ++
  (if q = "notifications" ∨ q = "all" then [Action.readNotifications] else [])

/-- The guarded control branches of `main`, in source order: each entry
pairs the branch guard (the truthiness test the source performs on the
flag) with the action that branch prints before returning — the
operation itself, or the argument-validation error printed when a
required argument of that operation is missing. -/
def controlBranches (args : Args) : List (Bool × Action) :=
  [(args.reboot, Action.reboot),
   (args.shutdown, Action.shutdown),
   (args.start_array, Action.startArray),
   (args.stop_array, Action.stopArray),
   (args.start_parity, Action.startParity false),
   (args.correct_parity, Action.startParity true),
   (args.pause_parity, Action.pauseParity),
   (args.resume_parity, Action.resumeParity),
   (args.cancel_parity, Action.cancelParity),
   (args.add_user,
     if !truthy args.username || !truthy args.password then
       Action.argError "Error: Username and password are required for adding a user"
     else
       Action.addUser (args.username.getD "") (args.password.getD "")
         (args.description.getD "")),
   (args.delete_user,
     if !truthy args.username then
       Action.argError "Error: Username is required for deleting a user"
     else Action.deleteUser (args.username.getD "")),
   (args.create_apikey,
     if !truthy args.apikey_name then
       Action.argError "Error: API key name is required"
     else
       Action.createApiKey (args.apikey_name.getD "")
         (args.description.getD "")
         (if truthy args.apikey_roles then
           some (((args.apikey_roles.getD "").splitOn ",").map String.trim)
          else none)),
   (args.create_notification,
     if !truthy args.title || !truthy args.subject || !truthy args.message then
       Action.argError "Error: Title, subject, and message are required for creating a notification"
     else
       Action.createNotification (args.title.getD "") (args.subject.getD "")
         (args.message.getD "") args.importance args.link),
   (truthy args.archive_notification,
     Action.archiveNotification (args.archive_notification.getD "")),
   (args.archive_all,
     Action.archiveAll
       (if args.importance ≠ "INFO" then some args.importance else none)),
   (args.setup_remote,
     if !truthy args.access_type then
       Action.argError "Error: Access type is required for setting up remote access"
     else
       Action.setupRemote (args.access_type.getD "") args.forward_type
         args.remote_port),
   (truthy args.start_container,
     Action.startContainer (args.start_container.getD "")),
   (truthy args.stop_container,
     Action.stopContainer (args.stop_container.getD "")),
   (truthy args.restart_container,
     Action.restartContainer (args.restart_container.getD "")),
   (truthy args.start_vm, Action.startVm (args.start_vm.getD "")),
   (truthy args.stop_vm,
     Action.stopVm (args.stop_vm.getD "") args.force_stop_vm),
   (truthy args.pause_vm, Action.pauseVm (args.pause_vm.getD "")),
   (truthy args.resume_vm, Action.resumeVm (args.resume_vm.getD ""))]

/-- The first branch whose guard holds, scanning in order — exactly the
behavior of the sequential `if … : … return` chain of `main`. -/
def firstTrue : List (Bool × Action) → Option Action
  | [] => none
  | (b, a) :: rest => if b then some a else firstTrue rest

/-- The sequence of top-level actions `main` executes for given parsed
arguments: the control/mutation `if` chain runs first (the first branch
whose guard holds prints one section and `main` returns immediately);
then the custom query; only when none of those fired do the read-query
sections run. -/
def mainActions (args : Args) : List Action :=
  match firstTrue (controlBranches args) with
  | some a => [a]
  | none =>
    if truthy args.custom then [Action.customQuery (args.custom.getD "")]
    else readActions args.query

/-- Whether a mutating/control flag is set on the command line, in the
sense the source tests it: some guard of the control `if` chain holds
(truthiness of the flag value). -/
def controlRequested (args : Args) : Bool :=
  (controlBranches args).any (fun p => p.1)

/-- Whether an action is one of the read-query sections. -/
def Action.isRead : Action → Bool
  | .readInfo | .readArray | .readDocker | .readDisks | .readNetwork
  | .readNetworkDetailed | .readShares | .readVms | .readParity
  | .readVars | .readUsers | .readApiKeys | .readNotifications => true
  | _ => false

/-- Whether an action is the printed outcome of a control/mutating
branch of `main` (including its argument-validation error). -/
def Action.isControlOutcome : Action → Bool
  | .customQuery _ => false
  | a => !a.isRead

/-- The endpoint `main` pins when the `--direct` flag is set:
`"http://{args.ip}:{args.port}/graphql"`. -/
def directUrl (args : Args) : String :=
  "http://" ++ args.ip ++ ":" ++ toString args.port ++ "/graphql"

/-- The direct-mode override in `main`: when `args.direct` is set, the
client endpoint is reassigned to the literal base address and the stored
redirect url is cleared; nothing else on the client is touched. -/
def applyDirectMode (args : Args) (st : ClientState) : ClientState :=
  if args.direct then
    { st with endpoint := directUrl args, redirect_url := none }
  else st

/-- The client construction performed by `main`: build the client (which
runs the probe and redirect discovery in `__init__`), then apply the
direct-mode override.  Returns the resulting state, the requests issued
so far, and the printed lines. -/
def mainClientSetup (args : Args) (probe : ProbeOutcome) :
    ClientState × List Request × List String :=
  let c := initClient args.ip args.key args.port probe
  (applyDirectMode args c.1, c.2.1, c.2.2)

/-- Substring test on character lists: does `sub` occur contiguously in
`s`? -/
def listContains : List Char → List Char → Bool
  | [], sub => sub.isEmpty
  | c :: rest, sub => sub.isPrefixOf (c :: rest) || listContains rest sub

/-- Substring test on strings, used to state what a message does or does
not capture. -/
def strContains (s sub : String) : Bool :=
  listContains s.data sub.data

/-- A sample freshly-constructed session (before discovery). -/
def sampleState : ClientState := initState "192.168.20.21" "testkey" 80

/-- The redirect target used in the concrete test responses. -/
def locUnraid : String := "https://abc.unraid.net/graphql"

/-- A probe response with status 302 and a `Location` header. -/
def response302 : HttpResponse :=
  { status := 302
    reason := "Found"
    url := "http://192.168.20.21:80/graphql"
    headers := [("Location", "https://abc.unraid.net/graphql")]
    bodyText := ""
    bodyJson := .error ⟨.expectingValue, 1, 1, 0⟩ }

/-- A probe response with status 301 and the same `Location` header. -/
def response301 : HttpResponse :=
  { response302 with status := 301, reason := "Moved Permanently" }

/-- A 200 response (no redirect). -/
def response200 : HttpResponse :=
  { status := 200
    reason := "OK"
    url := "http://192.168.20.21:80/graphql"
    headers := []
    bodyText := "\x7b\"data\":null\x7d"
    bodyJson := .ok (Json.obj [("data", Json.null)]) }

/-- A 304 response without a `Location` header. -/
def response304 : HttpResponse :=
  { status := 304
    reason := "Not Modified"
    url := "http://192.168.20.21:80/graphql"
    headers := []
    bodyText := ""
    bodyJson := .error ⟨.expectingValue, 1, 1, 0⟩ }

/-- A 500 response whose body is a GraphQL error document. -/
def response500 : HttpResponse :=
  { status := 500
    reason := "Internal Server Error"
    url := "http://192.168.20.21:80/graphql"
    headers := []
    bodyText := "\x7b\"errors\":[\x7b\"message\":\"boom\"\x7d]\x7d"
    bodyJson := .ok (Json.obj [("errors",
      Json.arr [Json.obj [("message", Json.str "boom")]])]) }

/-- A 200 response whose body is not valid JSON (an HTML login page). -/
def responseBadJson : HttpResponse :=
  { status := 200
    reason := "OK"
    url := "http://192.168.20.21:80/graphql"
    headers := []
    bodyText := "<html>Sign in</html>"
    bodyJson := .error ⟨.expectingValue, 1, 1, 0⟩ }

/-- Arguments with every flag at its parser default. -/
def baseArgs : Args :=
  { ip := "192.168.20.21"
    key := "testkey"
    port := 80
    query := "info"
    direct := false
    custom := none
    reboot := false
    shutdown := false
    start_array := false
    stop_array := false
    start_parity := false
    correct_parity := false
    pause_parity := false
    resume_parity := false
    cancel_parity := false
    add_user := false
    username := none
    password := none
    description := none
    delete_user := false
    create_apikey := false
    apikey_name := none
    apikey_roles := none
    create_notification := false
    title := none
    subject := none
    message := none
    importance := "INFO"
    link := none
    archive_notification := none
    archive_all := false
    setup_remote := false
    access_type := none
    forward_type := none
    remote_port := none
    start_container := none
    stop_container := none
    restart_container := none
    start_vm := none
    stop_vm := none
    force_stop_vm := false
    pause_vm := none
    resume_vm := none }

/-- Default arguments plus the `--direct` flag. -/
def directArgs : Args := { baseArgs with direct := true }

/-- Default arguments plus the `--reboot` flag. -/
def rebootArgs : Args := { baseArgs with reboot := true }

/-- Looking up the key just set returns the value just set. -/
theorem pyDictGet_set_same {α : Type} (hs : List (String × α)) (k : String)
    (v : α) : pyDictGet (pyDictSet hs k v) k = some v := by
  induction hs with
  | nil => simp [pyDictSet, pyDictGet]
  | cons p rest ih =>
    obtain ⟨k', v'⟩ := p
    by_cases h : k' = k
    · simp [pyDictSet, pyDictGet, h]
    · simp [pyDictSet, pyDictGet, h, ih]

/-- Setting one key leaves lookups of every other key unchanged. -/
theorem pyDictGet_set_other {α : Type} (hs : List (String × α))
    (k q : String) (v : α) (h : q ≠ k) :
    pyDictGet (pyDictSet hs k v) q = pyDictGet hs q := by
  have h' : ¬ k = q := fun hk => h hk.symm
  induction hs with
  | nil => simp [pyDictSet, pyDictGet, h']
  | cons p rest ih =>
    obtain ⟨k', v'⟩ := p
    by_cases hk : k' = k
    · subst hk
      simp [pyDictSet, pyDictGet, h']
    · simp [pyDictSet, pyDictGet, hk, ih]

/-- Strings whose first characters differ are different. -/
theorem stringNeOfHead (s t : String) (h : s.data.head? ≠ t.data.head?) :
    s ≠ t := by
  intro he
  exact h (by rw [he])

/-- The first character of an appended string is the first character of
its nonempty left part. -/
theorem headOfAppend (s t : String) (c : Char)
    (h : s.data.head? = some c) : (s ++ t).data.head? = some c := by
  obtain ⟨sd⟩ := s
  obtain ⟨td⟩ := t
  show (sd ++ td).head? = some c
  cases sd with
  | nil => simp at h
  | cons a as => simpa using h

/-- A list is a Boolean prefix of itself followed by anything. -/
theorem isPrefixOf_self_append (l t : List Char) :
    l.isPrefixOf (l ++ t) = true := by
  induction l with
  | nil => cases t with | nil => rfl | cons b bs => rfl
  | cons a as ih => simp [List.isPrefixOf, ih]

/-- A character list contains itself followed by anything. -/
theorem listContains_self_append (l t : List Char) :
    listContains (l ++ t) l = true := by
  cases l with
  | nil =>
    cases t with
    | nil => rfl
    | cons b bs => simp [listContains, List.isPrefixOf]
  | cons a as =>
    show listContains (a :: (as ++ t)) (a :: as) = true
    unfold listContains
    rw [show a :: (as ++ t) = (a :: as) ++ t from rfl, isPrefixOf_self_append]
    simp

/-- A string contains its own left part. -/
theorem strContains_left (a b : String) : strContains (a ++ b) a = true := by
  unfold strContains
  rw [String.data_append]
  exact listContains_self_append a.data b.data

/-- A json decode error message is never equal to the message of a
transport failure: the former starts with the fixed decoder prose, the
latter with the connection-pool prefix. -/
theorem jsonErrText_ne_transport (je : JsonDecodeErr) (t : ReqException)
    (ht : t.isTransportFailure = true) : je.text ≠ t.text := by
  have hj : je.text.data.head? = some 'E' ∨ je.text.data.head? = some 'U' ∨
      je.text.data.head? = some 'I' := by
    obtain ⟨kind, l, c, p⟩ := je
    cases kind with
    | expectingValue => exact Or.inl (headOfAppend _ _ _ rfl)
    | extraData => exact Or.inl (headOfAppend _ _ _ rfl)
    | unterminatedString => exact Or.inr (Or.inl (headOfAppend _ _ _ rfl))
    | invalidControlChar => exact Or.inr (Or.inr (headOfAppend _ _ _ rfl))
  have htc : t.text.data.head? = some 'H' := by
    cases t with
    | connectionError host port detail => exact headOfAppend _ _ _ rfl
    | timeoutError host port detail => exact headOfAppend _ _ _ rfl
    | httpError s r u => simp [ReqException.isTransportFailure] at ht
    | jsonDecodeError e => simp [ReqException.isTransportFailure] at ht
  apply stringNeOfHead
  rcases hj with h | h | h <;> rw [h, htc] <;> simp

/-- Discovery on a 302 response carrying a Location header whose
authority can be extracted: the full state update it performs. -/
theorem discover_on_302 (st : ClientState) (r : HttpResponse)
    (loc domain : String) (h302 : r.status = 302)
    (hloc : headerGet r.headers "Location" = some loc)
    (hdom : searchUrlAuthority loc.data = some domain) :
    discoverRedirectUrl st (.response r) =
      ({ st with
          endpoint := loc
          redirect_url := some loc
          headers := augmentHeaders st.headers domain },
       ["Discovered redirect URL: " ++ loc]) := by
  simp [discoverRedirectUrl, h302, hloc, hdom]

/-- Discovery on a 302 response carrying a Location header from which no
authority can be extracted: endpoint and redirect url are still set, the
headers stay as they were. -/
theorem discover_on_302_noauth (st : ClientState) (r : HttpResponse)
    (loc : String) (h302 : r.status = 302)
    (hloc : headerGet r.headers "Location" = some loc)
    (hdom : searchUrlAuthority loc.data = none) :
    discoverRedirectUrl st (.response r) =
      ({ st with endpoint := loc, redirect_url := some loc },
       ["Discovered redirect URL: " ++ loc]) := by
  simp [discoverRedirectUrl, h302, hloc, hdom]

/-- The executor raises `HTTPError` exactly on 4xx/5xx final statuses. -/
theorem queryAttempt_httpError (r : HttpResponse) (h4 : 400 ≤ r.status)
    (h6 : r.status < 600) :
    queryAttempt (.response r) = .error (.httpError r.status r.reason r.url) := by
  simp only [queryAttempt]
  rw [if_pos ⟨h4, h6⟩]

/-- Every call of `execute_query` issues exactly one POST, to the
session endpoint, with the session headers and the built payload. -/
theorem execute_query_requests (st : ClientState) (q : String)
    (v : Option (List (String × Json))) (o : PostOutcome) :
    (execute_query st q v o).2.1 =
      [Request.post st.endpoint st.headers (buildPayload q v)] := by
  cases hqa : queryAttempt o <;> simp [execute_query, hqa]

/-- C1, counterexample: the claim says any 3xx probe response with a
Location header makes the location the new effective endpoint, but the
source tests `status_code == 302` exactly: on a 301 response carrying a
Location header the endpoint, redirect url and headers are all left
unchanged. -/
theorem c1_counterexample :
    (300 ≤ response301.status ∧ response301.status < 400 ∧
      headerGet response301.headers "Location" = some locUnraid) ∧
    discoverRedirectUrl sampleState (.response response301) =
      (sampleState, []) ∧
    (discoverRedirectUrl sampleState (.response response301)).1.endpoint ≠
      locUnraid ∧
    pyDictGet (discoverRedirectUrl sampleState
      (.response response301)).1.headers "Host" = none :=
  ⟨⟨by decide, by decide, by decide⟩, rfl, by decide, rfl⟩

/-- C1, amended: for every probe response whose status is exactly 302 and
that carries a Location header, discovery sets the session endpoint (and
stored redirect url) to the location value; when an authority can be
extracted from the location it merges exactly the three overrides
`Host = authority`, `Origin = https://authority`,
`Referer = https://authority/dashboard` into the header set, leaving
every other header entry as it was, and when no authority can be
extracted the header set is left entirely unchanged. -/
theorem c1_redirect302_sets_endpoint_and_headers
    (st : ClientState) (r : HttpResponse) (loc : String)
    (h302 : r.status = 302)
    (hloc : headerGet r.headers "Location" = some loc) :
    (discoverRedirectUrl st (.response r)).1.endpoint = loc ∧
    (discoverRedirectUrl st (.response r)).1.redirect_url = some loc ∧
    (∀ domain : String, searchUrlAuthority loc.data = some domain →
      pyDictGet (discoverRedirectUrl st (.response r)).1.headers "Host" =
        some domain ∧
      pyDictGet (discoverRedirectUrl st (.response r)).1.headers "Origin" =
        some ("https://" ++ domain) ∧
      pyDictGet (discoverRedirectUrl st (.response r)).1.headers "Referer" =
        some ("https://" ++ domain ++ "/dashboard") ∧
      ∀ k : String, k ≠ "Host" → k ≠ "Origin" → k ≠ "Referer" →
        pyDictGet (discoverRedirectUrl st (.response r)).1.headers k =
          pyDictGet st.headers k) ∧
    (searchUrlAuthority loc.data = none →
      (discoverRedirectUrl st (.response r)).1.headers = st.headers) := by
  cases hdom : searchUrlAuthority loc.data with
  | some domain =>
    rw [discover_on_302 st r loc domain h302 hloc hdom]
    refine ⟨rfl, rfl, ?_, ?_⟩
    · intro d hd
      cases hd
      refine ⟨?_, ?_, ?_, ?_⟩
      · show pyDictGet (augmentHeaders st.headers domain) "Host" =
          some domain
        unfold augmentHeaders
        rw [pyDictGet_set_other _ _ _ _ (by decide),
          pyDictGet_set_other _ _ _ _ (by decide), pyDictGet_set_same]
      · show pyDictGet (augmentHeaders st.headers domain) "Origin" =
          some ("https://" ++ domain)
        unfold augmentHeaders
        rw [pyDictGet_set_other _ _ _ _ (by decide), pyDictGet_set_same]
      · show pyDictGet (augmentHeaders st.headers domain) "Referer" =
          some ("https://" ++ domain ++ "/dashboard")
        unfold augmentHeaders
        rw [pyDictGet_set_same]
      · intro k hH hO hR
        show pyDictGet (augmentHeaders st.headers domain) k =
          pyDictGet st.headers k
        unfold augmentHeaders
        rw [pyDictGet_set_other _ _ _ _ hR, pyDictGet_set_other _ _ _ _ hO,
          pyDictGet_set_other _ _ _ _ hH]
    · intro hnone
      exact Option.noConfusion hnone
  | none =>
    rw [discover_on_302_noauth st r loc h302 hloc hdom]
    refine ⟨rfl, rfl, ?_, fun _ => rfl⟩
    intro d hd
    exact Option.noConfusion hd

/-- Witness for C1 at a concrete 302 probe response. -/
theorem c1_redirect302_witness :
    (response302.status = 302 ∧
     headerGet response302.headers "Location" = some locUnraid) ∧
    ((discoverRedirectUrl sampleState (.response response302)).1.endpoint =
        locUnraid ∧
     (discoverRedirectUrl sampleState
        (.response response302)).1.redirect_url = some locUnraid ∧
     (∀ domain : String,
        searchUrlAuthority locUnraid.data = some domain →
        pyDictGet (discoverRedirectUrl sampleState
            (.response response302)).1.headers "Host" = some domain ∧
        pyDictGet (discoverRedirectUrl sampleState
            (.response response302)).1.headers "Origin" =
          some ("https://" ++ domain) ∧
        pyDictGet (discoverRedirectUrl sampleState
            (.response response302)).1.headers "Referer" =
          some ("https://" ++ domain ++ "/dashboard") ∧
        ∀ k : String, k ≠ "Host" → k ≠ "Origin" → k ≠ "Referer" →
          pyDictGet (discoverRedirectUrl sampleState
              (.response response302)).1.headers k =
            pyDictGet sampleState.headers k) ∧
     (searchUrlAuthority locUnraid.data = none →
       (discoverRedirectUrl sampleState (.response response302)).1.headers =
         sampleState.headers)) :=
  ⟨⟨rfl, by decide⟩,
   c1_redirect302_sets_endpoint_and_headers sampleState response302
     locUnraid rfl (by decide)⟩

/-- C5: each unsupported docker/VM control operation returns the fixed
"not supported" error record for every argument value, and its request
log is empty: no network call is attempted. -/
theorem c5_unsupported_ops_no_network (st : ClientState)
    (container_id vm_uuid : String) (force : Bool) :
    start_docker_container st container_id =
      (Json.obj [("error", Json.str unsupportedDockerMsg)], []) ∧
    stop_docker_container st container_id =
      (Json.obj [("error", Json.str unsupportedDockerMsg)], []) ∧
    restart_docker_container st container_id =
      (Json.obj [("error", Json.str unsupportedDockerMsg)], []) ∧
    start_vm st vm_uuid =
      (Json.obj [("error", Json.str unsupportedVmMsg)], []) ∧
    stop_vm st vm_uuid force =
      (Json.obj [("error", Json.str unsupportedVmMsg)], []) ∧
    pause_vm st vm_uuid =
      (Json.obj [("error", Json.str unsupportedVmMsg)], []) ∧
    resume_vm st vm_uuid =
      (Json.obj [("error", Json.str unsupportedVmMsg)], []) ∧
    (start_docker_container st container_id).2.length = 0 ∧
    (start_vm st vm_uuid).2.length = 0 :=
  ⟨rfl, rfl, rfl, rfl, rfl, rfl, rfl, rfl, rfl⟩

/-- C6: when the discovery probe raises any transport exception, the
session state is returned unchanged (the endpoint remains the original
base graphql address), exactly one warning diagnostic is printed, and no
exception escapes (the embedding is a total function into states). -/
theorem c6_probe_failure_keeps_endpoint (server_ip api_key : String)
    (port : Nat) (e : ReqException) :
    discoverRedirectUrl (initState server_ip api_key port) (.failure e) =
      (initState server_ip api_key port,
       ["Warning: Could not discover redirect URL: " ++ e.text]) ∧
    (discoverRedirectUrl (initState server_ip api_key port)
        (.failure e)).1.endpoint =
      "http://" ++ server_ip ++ ":" ++ toString port ++ "/graphql" :=
  ⟨rfl, rfl⟩

/-- C7: a probe response whose status is not a redirect (not in the 3xx
range) changes no session state and prints nothing, and so does any
response without a Location header (in particular a redirect response
that lacks one). -/
theorem c7_non_redirect_no_state_change (st : ClientState)
    (r : HttpResponse) :
    (¬(300 ≤ r.status ∧ r.status < 400) →
      discoverRedirectUrl st (.response r) = (st, [])) ∧
    (headerGet r.headers "Location" = none →
      discoverRedirectUrl st (.response r) = (st, [])) := by
  constructor
  · intro h
    have h302 : ¬ r.status = 302 := by
      intro heq
      exact h ⟨by omega, by omega⟩
    simp [discoverRedirectUrl, h302]
  · intro hl
    by_cases h302 : r.status = 302
    · simp [discoverRedirectUrl, h302, hl]
    · simp [discoverRedirectUrl, h302]

/-- Witness for C7 at a concrete 200 response and a concrete 304 response
without a Location header. -/
theorem c7_witness :
    (¬(300 ≤ response200.status ∧ response200.status < 400) ∧
      discoverRedirectUrl sampleState (.response response200) =
        (sampleState, [])) ∧
    (headerGet response304.headers "Location" = none ∧
      discoverRedirectUrl sampleState (.response response304) =
        (sampleState, [])) :=
  ⟨⟨by decide, (c7_non_redirect_no_state_change sampleState response200).1
      (by decide)⟩,
   ⟨rfl, (c7_non_redirect_no_state_change sampleState response304).2 rfl⟩⟩

/-- C8: the payload of every `execute_query` call carries a `query` field
equal to the operation text, and carries a `variables` field exactly when
a variables mapping was supplied and is non-empty. -/
theorem c8_payload_fields (q : String)
    (vars : Option (List (String × Json))) :
    pyDictGet (buildPayload q vars) "query" = some (Json.str q) ∧
    ((pyDictGet (buildPayload q vars) "variables").isSome ↔
      ∃ vs, vars = some vs ∧ vs ≠ []) := by
  cases vars with
  | none =>
    refine ⟨rfl, ?_⟩
    constructor
    · intro h
      exact Bool.noConfusion h
    · rintro ⟨vs, hv, hne⟩
      exact Option.noConfusion hv
  | some vs =>
    cases vs with
    | nil =>
      refine ⟨rfl, ?_⟩
      constructor
      · intro h
        exact Bool.noConfusion h
      · rintro ⟨vs', hv, hne⟩
        cases hv
        exact absurd rfl hne
    | cons a as =>
      refine ⟨rfl, ?_⟩
      constructor
      · intro _
        exact ⟨a :: as, rfl, List.cons_ne_nil a as⟩
      · intro _
        rfl

/-- C2, divergence exhibited: with the direct-connection flag set, `main`
does pin the effective endpoint to the literal
`http://{ip}:{port}/graphql` and clears the stored redirect url — but the
client has already been constructed at that point, and `__init__`
unconditionally issued the discovery probe GET: the request log of the
setup holds one probe request, not zero, contradicting the documented
"no probe request is issued" behavior of the `--direct` flag. -/
theorem c2_direct_mode_probe_still_issued :
    (mainClientSetup directArgs (.response response302)).1.endpoint =
      "http://192.168.20.21:80/graphql" ∧
    (mainClientSetup directArgs (.response response302)).1.redirect_url =
      none ∧
    (mainClientSetup directArgs (.response response302)).2.1 =
      [Request.get "http://192.168.20.21:80/graphql"] ∧
    (mainClientSetup directArgs (.response response302)).2.1.length = 1 :=
  ⟨rfl, rfl, rfl, rfl⟩

/-- C3, counterexample: on an HTTP 500 response with a JSON error body,
the value `execute_query` returns is the record
`{"error": str(HTTPError)}`; that record contains the status code but
does not contain the raw body text — the body text appears only in the
printed diagnostics.  The claim that the returned error record captures
the raw body text is therefore false at this input. -/
theorem c3_counterexample :
    execute_query sampleState "query" none (.response response500) =
      (QueryResult.errorRecord
        "500 Server Error: Internal Server Error for url: http://192.168.20.21:80/graphql",
       [Request.post sampleState.endpoint sampleState.headers
         (buildPayload "query" none)],
       ["Error making the request: 500 Server Error: Internal Server Error for url: http://192.168.20.21:80/graphql",
        "Response status: 500",
        "Response body: " ++ response500.bodyText]) ∧
    strContains
      "500 Server Error: Internal Server Error for url: http://192.168.20.21:80/graphql"
      response500.bodyText = false :=
  ⟨rfl, by decide⟩

/-- C3, amended: on every 4xx/5xx response, `execute_query` returns the
error record `{"error": str(HTTPError)}` whose message contains the
status code, prints diagnostics that carry the status code and the raw
body text, and lets no exception escape; the raw body text lives in the
diagnostics, not in the returned record (and a 3xx final status is not
turned into an error record at all, since `raise_for_status` only raises
for statuses from 400 to 599). -/
theorem c3_http_error_record (st : ClientState) (q : String)
    (v : Option (List (String × Json))) (r : HttpResponse)
    (h4 : 400 ≤ r.status) (h6 : r.status < 600) :
    execute_query st q v (.response r) =
      (QueryResult.errorRecord
        (ReqException.text (.httpError r.status r.reason r.url)),
       [Request.post st.endpoint st.headers (buildPayload q v)],
       ["Error making the request: " ++
          ReqException.text (.httpError r.status r.reason r.url),
        "Response status: " ++ toString r.status,
        "Response body: " ++ r.bodyText]) ∧
    strContains (ReqException.text (.httpError r.status r.reason r.url))
      (toString r.status) = true := by
  constructor
  · simp [execute_query, queryAttempt_httpError r h4 h6, errResponse]
  · show strContains (toString r.status ++ (" " ++ (httpErrorClass r.status
      ++ (" Error: " ++ (r.reason ++ (" for url: " ++ r.url))))))
      (toString r.status) = true
    exact strContains_left _ _

/-- Witness for C3 (amended) at the concrete 500 response. -/
theorem c3_http_error_record_witness :
    (400 ≤ response500.status ∧ response500.status < 600) ∧
    (execute_query sampleState "query" none (.response response500) =
      (QueryResult.errorRecord
        (ReqException.text (.httpError response500.status response500.reason
          response500.url)),
       [Request.post sampleState.endpoint sampleState.headers
         (buildPayload "query" none)],
       ["Error making the request: " ++
          ReqException.text (.httpError response500.status response500.reason
            response500.url),
        "Response status: " ++ toString response500.status,
        "Response body: " ++ response500.bodyText]) ∧
     strContains (ReqException.text (.httpError response500.status
        response500.reason response500.url))
       (toString response500.status) = true) :=
  ⟨⟨by decide, by decide⟩,
   c3_http_error_record sampleState "query" none response500
     (by decide) (by decide)⟩

/-- C4: on every 2xx response whose body fails to decode as JSON,
`execute_query` catches the decode error and returns the record
`{"error": str(e)}` — an error value distinct from the one produced by
every transport failure (their messages can never coincide) — instead of
letting the exception escape; and on every 2xx response whose body is
valid JSON, the decoded document is returned verbatim. -/
theorem c4_malformed_json_distinct_error (st : ClientState) (q : String)
    (v : Option (List (String × Json))) (r : HttpResponse)
    (h2 : 200 ≤ r.status) (h3 : r.status < 300) :
    (∀ je : JsonDecodeErr, r.bodyJson = .error je →
      execute_query st q v (.response r) =
        (QueryResult.errorRecord je.text,
         [Request.post st.endpoint st.headers (buildPayload q v)],
         ["Error making the request: " ++ je.text]) ∧
      ∀ t : ReqException, t.isTransportFailure = true →
        je.text ≠ t.text) ∧
    (∀ j : Json, r.bodyJson = .ok j →
      execute_query st q v (.response r) =
        (QueryResult.ok j,
         [Request.post st.endpoint st.headers (buildPayload q v)], [])) := by
  have hno : ¬(400 ≤ r.status ∧ r.status < 600) := by omega
  constructor
  · intro je hje
    constructor
    · have hqa : queryAttempt (.response r) =
          .error (.jsonDecodeError je) := by
        simp [queryAttempt, if_neg hno, hje]
      simp [execute_query, hqa, errResponse, ReqException.text]
    · exact fun t ht => jsonErrText_ne_transport je t ht
  · intro j hj
    have hqa : queryAttempt (.response r) = .ok j := by
      simp [queryAttempt, if_neg hno, hj]
    simp [execute_query, hqa]

/-- Witness for C4 at a concrete 200 response with a non-JSON body. -/
theorem c4_malformed_json_witness :
    (200 ≤ responseBadJson.status ∧ responseBadJson.status < 300) ∧
    ((∀ je : JsonDecodeErr, responseBadJson.bodyJson = .error je →
      execute_query sampleState "query" none (.response responseBadJson) =
        (QueryResult.errorRecord je.text,
         [Request.post sampleState.endpoint sampleState.headers
           (buildPayload "query" none)],
         ["Error making the request: " ++ je.text]) ∧
      ∀ t : ReqException, t.isTransportFailure = true →
        je.text ≠ t.text) ∧
    (∀ j : Json, responseBadJson.bodyJson = .ok j →
      execute_query sampleState "query" none (.response responseBadJson) =
        (QueryResult.ok j,
         [Request.post sampleState.endpoint sampleState.headers
           (buildPayload "query" none)], []))) :=
  ⟨⟨by decide, by decide⟩,
   c4_malformed_json_distinct_error sampleState "query" none responseBadJson
     (by decide) (by decide)⟩

/-- When some guard of a guarded branch list holds, the first-true scan
returns an action, and that action is paired with some guard in the
list. -/
theorem firstTrue_of_any (l : List (Bool × Action))
    (h : l.any (fun p => p.1) = true) :
    ∃ a, firstTrue l = some a ∧ ∃ b, (b, a) ∈ l := by
  induction l with
  | nil => simp at h
  | cons p rest ih =>
    obtain ⟨b, a⟩ := p
    cases b with
    | true => exact ⟨a, by simp [firstTrue], true, by simp⟩
    | false =>
      have h' : rest.any (fun p => p.1) = true := by simpa using h
      obtain ⟨a', ha', b', hb'⟩ := ih h'
      exact ⟨a', by simpa [firstTrue] using ha', b', by simp [hb']⟩

/-- Every action in the control branch list is a control outcome and not
a read query. -/
theorem controlBranches_control (args : Args) (p : Bool × Action)
    (hp : p ∈ controlBranches args) :
    p.2.isControlOutcome = true ∧ p.2.isRead = false := by
  simp only [controlBranches, List.mem_cons, List.mem_singleton] at hp
  rcases hp with rfl|rfl|rfl|rfl|rfl|rfl|rfl|rfl|rfl|rfl|rfl|rfl|rfl|rfl|rfl|rfl|rfl|rfl|rfl|rfl|rfl|rfl|rfl|hp
  all_goals try exact ⟨by first | rfl | (split <;> rfl),
    by first | rfl | (split <;> rfl)⟩
  simp at hp

/-- C9: whenever a mutating/control flag is set (in the truthiness sense
the source tests), `main` executes exactly one top-level action, that
action is the printed outcome of a control branch (the operation result
or its argument-validation error, after which `main` returns
immediately), and no read-query section ever runs in the same
invocation. -/
theorem c9_control_flag_short_circuits (args : Args)
    (h : controlRequested args = true) :
    ∃ a : Action, mainActions args = [a] ∧ a.isControlOutcome = true ∧
      a.isRead = false := by
  obtain ⟨a, ha, b, hmem⟩ := firstTrue_of_any (controlBranches args) h
  have hprops : a.isControlOutcome = true ∧ a.isRead = false := by
    have hp := controlBranches_control args (b, a) hmem
    exact hp
  refine ⟨a, ?_, hprops.1, hprops.2⟩
  simp [mainActions, ha]

/-- Witness for C9 at a concrete invocation carrying the reboot flag. -/
theorem c9_witness :
    controlRequested rebootArgs = true ∧
    ∃ a : Action, mainActions rebootArgs = [a] ∧
      a.isControlOutcome = true ∧ a.isRead = false :=
  ⟨rfl, c9_control_flag_short_circuits rebootArgs rfl⟩

/-- C10: when discovery has found a 302 redirect and augmented the
headers, the direct-mode override in `main` resets only the endpoint
(to the literal base graphql address) and the stored redirect url; the
`Host`, `Origin` and `Referer` overrides stay in the session header set,
and every later `execute_query` call posts to the pinned direct endpoint
with exactly those headers. -/
theorem c10_direct_after_discovery_keeps_headers
    (args : Args) (r : HttpResponse) (loc domain : String)
    (hd : args.direct = true) (h302 : r.status = 302)
    (hloc : headerGet r.headers "Location" = some loc)
    (hdom : searchUrlAuthority loc.data = some domain) :
    (mainClientSetup args (.response r)).1.headers =
      augmentHeaders (initialHeaders args.key) domain ∧
    pyDictGet (mainClientSetup args (.response r)).1.headers "Host" =
      some domain ∧
    pyDictGet (mainClientSetup args (.response r)).1.headers "Origin" =
      some ("https://" ++ domain) ∧
    pyDictGet (mainClientSetup args (.response r)).1.headers "Referer" =
      some ("https://" ++ domain ++ "/dashboard") ∧
    (mainClientSetup args (.response r)).1.endpoint = directUrl args ∧
    (mainClientSetup args (.response r)).1.redirect_url = none ∧
    (mainClientSetup args (.response r)).1.server_ip = args.ip ∧
    (mainClientSetup args (.response r)).1.api_key = args.key ∧
    ∀ (q : String) (v : Option (List (String × Json)))
      (outcome : PostOutcome),
      (execute_query (mainClientSetup args (.response r)).1 q v
          outcome).2.1 =
        [Request.post (directUrl args)
          (augmentHeaders (initialHeaders args.key) domain)
          (buildPayload q v)] := by
  have hdisc := discover_on_302 (initState args.ip args.key args.port) r
    loc domain h302 hloc hdom
  have hst : (mainClientSetup args (.response r)).1 =
      { server_ip := args.ip
        api_key := args.key
        port := args.port
        base_url := "http://" ++ args.ip ++ ":" ++ toString args.port
        endpoint := directUrl args
        redirect_url := none
        headers := augmentHeaders (initialHeaders args.key) domain } := by
    simp only [mainClientSetup, initClient, hdisc, applyDirectMode, hd]
    simp [initState, initialHeaders]
  refine ⟨?_, ?_, ?_, ?_, ?_, ?_, ?_, ?_, ?_⟩
  · rw [hst]
  · rw [hst]
    show pyDictGet (augmentHeaders (initialHeaders args.key) domain) "Host" =
      some domain
    unfold augmentHeaders
    rw [pyDictGet_set_other _ _ _ _ (by decide),
      pyDictGet_set_other _ _ _ _ (by decide), pyDictGet_set_same]
  · rw [hst]
    show pyDictGet (augmentHeaders (initialHeaders args.key) domain)
      "Origin" = some ("https://" ++ domain)
    unfold augmentHeaders
    rw [pyDictGet_set_other _ _ _ _ (by decide), pyDictGet_set_same]
  · rw [hst]
    show pyDictGet (augmentHeaders (initialHeaders args.key) domain)
      "Referer" = some ("https://" ++ domain ++ "/dashboard")
    unfold augmentHeaders
    rw [pyDictGet_set_same]
  · rw [hst]
  · rw [hst]
  · rw [hst]
  · rw [hst]
  · intro q v outcome
    rw [hst]
    exact execute_query_requests _ q v outcome

/-- Witness for C10 at the concrete direct-mode invocation and the
concrete 302 probe response. -/
theorem c10_witness :
    (directArgs.direct = true ∧ response302.status = 302 ∧
     headerGet response302.headers "Location" = some locUnraid ∧
     searchUrlAuthority locUnraid.data = some "abc.unraid.net") ∧
    ((mainClientSetup directArgs (.response response302)).1.headers =
      augmentHeaders (initialHeaders directArgs.key) "abc.unraid.net" ∧
    pyDictGet (mainClientSetup directArgs
        (.response response302)).1.headers "Host" = some "abc.unraid.net" ∧
    pyDictGet (mainClientSetup directArgs
        (.response response302)).1.headers "Origin" =
      some ("https://" ++ "abc.unraid.net") ∧
    pyDictGet (mainClientSetup directArgs
        (.response response302)).1.headers "Referer" =
      some ("https://" ++ "abc.unraid.net" ++ "/dashboard") ∧
    (mainClientSetup directArgs (.response response302)).1.endpoint =
      directUrl directArgs ∧
    (mainClientSetup directArgs (.response response302)).1.redirect_url =
      none ∧
    (mainClientSetup directArgs (.response response302)).1.server_ip =
      directArgs.ip ∧
    (mainClientSetup directArgs (.response response302)).1.api_key =
      directArgs.key ∧
    ∀ (q : String) (v : Option (List (String × Json)))
      (outcome : PostOutcome),
      (execute_query (mainClientSetup directArgs
          (.response response302)).1 q v outcome).2.1 =
        [Request.post (directUrl directArgs)
          (augmentHeaders (initialHeaders directArgs.key) "abc.unraid.net")
          (buildPayload q v)]) :=
  ⟨⟨rfl, rfl, by decide, by decide⟩,
   c10_direct_after_discovery_keeps_headers directArgs response302
     locUnraid "abc.unraid.net" rfl rfl (by decide) (by decide)⟩

end Unraid
